import Mathlib

/-!
Shallow embedding of the 0G compute starter kit query-and-settlement
workflow. The repository has two variants of the workflow:

* the service variant (`BrokerService` with `depositFunds`, `settleFee`
  and `sendQuery`), which returns structured results and rethrows
  wrapped errors, and
* the CLI variant (`sendQuery`, `depositFunds`, `settleFeeManually` and
  the `main` dispatcher), which prints results and swallows errors.

The external collaborators (payment broker and inference endpoint) are
modelled as a record of deterministic oracles (`BrokerEnv`), and every
operation additionally returns the list of broker calls it dispatched,
so that call-count and call-argument claims can be stated. JS numbers
are modelled by `Rat` (a `parseFloat` result of NaN is modelled as
`Option.none` at the CLI parsing site); JS `string | null` values are
`Option String`.
-/

namespace ZGCompute

/-- A value of a broker-issued header entry. The source copies an entry
into the outgoing request only when `typeof value === "string"`, so the
model distinguishes string values from everything else. -/
inductive HeaderValue where
  | str (s : String)
  | nonString
deriving DecidableEq

/-- A message inside a completion choice; `content` is `string | null`. -/
structure ChatMessage where
  role : String
  content : Option String
deriving DecidableEq

/-- One element of `completion.choices`. -/
structure Choice where
  message : ChatMessage
deriving DecidableEq

/-- The response of the inference endpoint: `{ id, choices }`. -/
structure Completion where
  id : String
  choices : List Choice
deriving DecidableEq

/-- The chat-completion request the workflow builds:
`{ messages, model }` plus the per-request headers passed to the client.
Each message is a `(role, content)` pair. -/
structure ChatRequest where
  messages : List (String × String)
  model : String
  headers : List (String × String)
deriving DecidableEq

/-- One dispatched call to an external collaborator, with its arguments. -/
inductive BrokerCall where
  | getServiceMetadata (addr : String)
  | getRequestHeaders (addr : String) (query : String)
  | chatCreate (endpoint : String) (req : ChatRequest)
  | processResponse (addr : String) (content : String) (chatId : String)
  | settleFee (addr : String) (fee : Rat)
  | depositFund (amount : Rat)
  | getLedger
deriving DecidableEq

/-- Deterministic oracles for the external collaborators: what each
broker / endpoint operation returns when called with given arguments. -/
structure BrokerEnv where
  getServiceMetadata : String → Except String (String × String)
  getRequestHeaders : String → String → Except String (List (String × HeaderValue))
  chatCreate : String → ChatRequest → Except String Completion
  processResponse : String → String → String → Except String Bool
  settleFee : String → Rat → Except String Unit
  depositFund : Rat → Except String Unit
  getLedger : Except String String

/-- The metadata of the object returned by `BrokerService.sendQuery`:
either the automatic-settlement shape `{ model, isValid, provider }` or
the fallback shape `{ model, usedFallbackFee, fallbackFeeAmount,
provider }`. -/
inductive QueryMetadata where
  | auto (model : String) (isValid : Bool) (provider : String)
  | fallback (model : String) (usedFallbackFee : Bool) (fallbackFeeAmount : Rat)
      (provider : String)
deriving DecidableEq

/-- The object returned by `BrokerService.sendQuery` on success. -/
structure QueryResult where
  content : Option String
  metadata : QueryMetadata
deriving DecidableEq

/-- The three payment outcomes named by the specification. -/
inductive PaymentOutcome where
  | Verified
  | FallbackSettled
  | Unsettled
deriving DecidableEq

/-- The payment outcome a returned result denotes: the automatic shape
means automatic settlement succeeded (`Verified`), the fallback shape
means manual fallback settlement succeeded (`FallbackSettled`). The code
never returns a result for an unsettled payment. -/
def QueryResult.paymentOutcome (r : QueryResult) : PaymentOutcome :=
  match r.metadata with
  | .auto _ _ _ => .Verified
  | .fallback _ _ _ _ => .FallbackSettled

/-- Error wrapper of the outer catch of `BrokerService.sendQuery`. -/
def queryFailed (msg : String) : String := "Query failed: " ++ msg

/-- Error wrapper thrown when automatic settlement fails and no positive
fallback fee is available. -/
def paymentFailedMsg (msg : String) : String := "Payment processing failed: " ++ msg

/-- Error wrapper of `BrokerService.settleFee`. -/
def settleFeeFailedMsg (msg : String) : String := "Failed to settle fee: " ++ msg

/-- The JS runtime error raised by `completion.choices[0].message` when
`choices` is empty: `choices[0]` is `undefined` and reading `.message`
throws. -/
def typeErrorMsg : String := "Cannot read properties of undefined (reading message)"

/-- The header preparation step of the source: keep exactly the entries whose
value is a string, in order, unchanged. -/
def stringHeaders (hs : List (String × HeaderValue)) : List (String × String) :=
  hs.filterMap fun kv =>
    match kv.2 with
    | .str s => some (kv.1, s)
    | .nonString => none

/-- The request built by both variants: one user message carrying the
query text, the model from the service metadata, the prepared headers. -/
def mkChatRequest (query model : String) (requestHeaders : List (String × String)) :
    ChatRequest :=
  { messages := [("user", query)], model := model, headers := requestHeaders }

/-- `BrokerService.settleFee`: forward to the broker, wrap errors. -/
def settleFeeOp (env : BrokerEnv) (providerAddress : String) (fee : Rat) :
    Except String String × List BrokerCall :=
  match env.settleFee providerAddress fee with
  | .ok _ => (.ok "Fee settled successfully", [.settleFee providerAddress fee])
  | .error e => (.error (settleFeeFailedMsg e), [.settleFee providerAddress fee])

/-- `BrokerService.depositFunds`: forward the amount to the broker with
no validation, wrap errors. -/
def depositFunds (env : BrokerEnv) (amount : Rat) :
    Except String String × List BrokerCall :=
  match env.depositFund amount with
  | .ok _ => (.ok "Deposit successful", [.depositFund amount])
  | .error e => (.error ("Failed to deposit funds: " ++ e), [.depositFund amount])

/-- The payment phase of `BrokerService.sendQuery` (the inner try/catch
after the response has been received): call `processResponse` with the
content coerced by `content || ""` and the completion id; on success
return the automatic-shape result; on failure settle manually when a
fallback fee is present and strictly positive (JS truthiness of `0` and
the `> 0` comparison coincide on this check), otherwise rethrow. Errors
here are wrapped again by the outer catch of the caller. -/
def settlePhase (env : BrokerEnv) (providerAddress model : String)
    (content : Option String) (chatId : String) (fallbackFee : Option Rat) :
    Except String QueryResult × List BrokerCall :=
  let autoCall := BrokerCall.processResponse providerAddress (content.getD "") chatId
  match env.processResponse providerAddress (content.getD "") chatId with
  | .ok isValid =>
      (.ok { content := content, metadata := .auto model isValid providerAddress },
        [autoCall])
  | .error e =>
      match fallbackFee with
      | some f =>
          if 0 < f then
            match settleFeeOp env providerAddress f with
            | (.ok _, t) =>
                (.ok { content := content,
                       metadata := .fallback model true f providerAddress },
                  autoCall :: t)
            | (.error e2, t) => (.error e2, autoCall :: t)
          else (.error (paymentFailedMsg e), [autoCall])
      | none => (.error (paymentFailedMsg e), [autoCall])

/-- `BrokerService.sendQuery`: resolve the service metadata, obtain the
broker headers, send one chat request with a single user message, read
`choices[0].message.content` (unguarded) and `completion.id`, then run
the payment phase. Every error is wrapped by the outer catch. -/
def sendQuery (env : BrokerEnv) (providerAddress query : String)
    (fallbackFee : Option Rat) : Except String QueryResult × List BrokerCall :=
  let t0 := [BrokerCall.getServiceMetadata providerAddress]
  match env.getServiceMetadata providerAddress with
  | .error e => (.error (queryFailed e), t0)
  | .ok (endpoint, model) =>
    let t1 := t0 ++ [BrokerCall.getRequestHeaders providerAddress query]
    match env.getRequestHeaders providerAddress query with
    | .error e => (.error (queryFailed e), t1)
    | .ok headers =>
      let req := mkChatRequest query model (stringHeaders headers)
      let t2 := t1 ++ [BrokerCall.chatCreate endpoint req]
      match env.chatCreate endpoint req with
      | .error e => (.error (queryFailed e), t2)
      | .ok completion =>
        match completion.choices with
        | [] => (.error (queryFailed typeErrorMsg), t2)
        | choice :: _ =>
          match settlePhase env providerAddress model choice.message.content
              completion.id fallbackFee with
          | (.ok r, t) => (.ok r, t2 ++ t)
          | (.error e, t) => (.error (queryFailed e), t2 ++ t)

/-- An observable event of the CLI variant: a dispatched broker call, the
printed response content, the printed validity flag, or a log line. -/
inductive CLIEvent where
  | call (c : BrokerCall)
  | printContent (content : Option String)
  | printValidity (isValid : Bool)
  | log (line : String)
deriving DecidableEq

/-- CLI `checkBalance`: read the ledger, print it or print the error. -/
def cliCheckBalance (env : BrokerEnv) : List CLIEvent :=
  CLIEvent.call .getLedger ::
  match env.getLedger with
  | .ok b => [.log ("Current balance: " ++ b)]
  | .error e => [.log ("Error checking balance: " ++ e)]

/-- CLI `depositFunds`: deposit with no validation, then show the
balance; errors are logged, not rethrown. -/
def cliDepositFunds (env : BrokerEnv) (amount : Rat) : List CLIEvent :=
  CLIEvent.call (.depositFund amount) ::
  match env.depositFund amount with
  | .ok _ => CLIEvent.log "Deposit successful." :: cliCheckBalance env
  | .error e => [.log ("Error depositing funds: " ++ e)]

/-- The `depositFee` branch of the CLI `main` dispatcher: parse the flag
(`none` models a NaN `parseFloat` result), require the amount to be a
number strictly greater than zero, and only then call `depositFunds`. -/
def cliDeposit (env : BrokerEnv) (flagAmount : Option Rat) : List CLIEvent :=
  match flagAmount with
  | some a => if 0 < a then cliDepositFunds env a else [.log "Invalid deposit amount"]
  | none => [.log "Invalid deposit amount"]

/-- CLI `settleFeeManually`: settle and log; errors are swallowed. -/
def cliSettleFeeManually (env : BrokerEnv) (providerAddress : String) (fee : Rat) :
    List CLIEvent :=
  CLIEvent.call (.settleFee providerAddress fee) ::
  match env.settleFee providerAddress fee with
  | .ok _ => [.log "Fee settled successfully"]
  | .error e => [.log ("Error settling fee: " ++ e)]

/-- The CLI `sendQuery`: same pipeline as the service variant, but the
content is printed as soon as the response arrives, before any payment
processing, and every failure is logged rather than rethrown. -/
def cliSendQuery (env : BrokerEnv) (providerAddress query : String)
    (fallbackFee : Option Rat) : List CLIEvent :=
  CLIEvent.call (.getServiceMetadata providerAddress) ::
  match env.getServiceMetadata providerAddress with
  | .error e => [.log ("Error sending query: " ++ e)]
  | .ok (endpoint, model) =>
    CLIEvent.call (.getRequestHeaders providerAddress query) ::
    match env.getRequestHeaders providerAddress query with
    | .error e => [.log ("Error sending query: " ++ e)]
    | .ok headers =>
      let req := mkChatRequest query model (stringHeaders headers)
      CLIEvent.call (.chatCreate endpoint req) ::
      match env.chatCreate endpoint req with
      | .error e => [.log ("Error sending query: " ++ e)]
      | .ok completion =>
        match completion.choices with
        | [] => [.log ("Error sending query: " ++ typeErrorMsg)]
        | choice :: _ =>
          let content := choice.message.content
          CLIEvent.printContent content ::
          CLIEvent.call (.processResponse providerAddress (content.getD "")
            completion.id) ::
          match env.processResponse providerAddress (content.getD "") completion.id with
          | .ok isValid => [.printValidity isValid]
          | .error e =>
            CLIEvent.log ("Error processing response: " ++ e) ::
            match fallbackFee with
            | some f =>
                if 0 < f then cliSettleFeeManually env providerAddress f
                else [.log "No fallback fee specified. Payment may not have been processed."]
            | none => [.log "No fallback fee specified. Payment may not have been processed."]

/-- Scenario A oracle: the provider answers "Hi there" with correlation
id "chat-1" and automatic settlement succeeds. -/
def envScenarioA : BrokerEnv where
  getServiceMetadata := fun _ => .ok ("https://provider.example", "llama")
  getRequestHeaders := fun _ _ => .ok [("Signature", .str "sig")]
  chatCreate := fun _ _ => .ok ⟨"chat-1", [⟨⟨"assistant", some "Hi there"⟩⟩]⟩
  processResponse := fun _ _ _ => .ok true
  settleFee := fun _ _ => .ok ()
  depositFund := fun _ => .ok ()
  getLedger := .ok "0"

/-- Oracle where automatic settlement fails with a stale-fee error while
manual settlement succeeds. -/
def envAutoFail : BrokerEnv where
  getServiceMetadata := fun _ => .ok ("https://provider.example", "llama")
  getRequestHeaders := fun _ _ => .ok [("Signature", .str "sig")]
  chatCreate := fun _ _ => .ok ⟨"chat-1", [⟨⟨"assistant", some "Hi there"⟩⟩]⟩
  processResponse := fun _ _ _ => .error "stale fee"
  settleFee := fun _ _ => .ok ()
  depositFund := fun _ => .ok ()
  getLedger := .ok "0"

/-- Oracle whose completion carries an empty correlation id. -/
def envEmptyChatId : BrokerEnv where
  getServiceMetadata := fun _ => .ok ("https://provider.example", "llama")
  getRequestHeaders := fun _ _ => .ok [("Signature", .str "sig")]
  chatCreate := fun _ _ => .ok ⟨"", [⟨⟨"assistant", some "Hi there"⟩⟩]⟩
  processResponse := fun _ _ _ => .ok true
  settleFee := fun _ _ => .ok ()
  depositFund := fun _ => .ok ()
  getLedger := .ok "0"

/-- Oracle whose completion has an empty choices list. -/
def envEmptyChoices : BrokerEnv where
  getServiceMetadata := fun _ => .ok ("https://provider.example", "llama")
  getRequestHeaders := fun _ _ => .ok [("Signature", .str "sig")]
  chatCreate := fun _ _ => .ok ⟨"chat-1", []⟩
  processResponse := fun _ _ _ => .ok true
  settleFee := fun _ _ => .ok ()
  depositFund := fun _ => .ok ()
  getLedger := .ok "0"

/-- Oracle whose completion has null content, with settlement accepted. -/
def envNullContent : BrokerEnv where
  getServiceMetadata := fun _ => .ok ("https://provider.example", "llama")
  getRequestHeaders := fun _ _ => .ok [("Signature", .str "sig")]
  chatCreate := fun _ _ => .ok ⟨"chat-1", [⟨⟨"assistant", none⟩⟩]⟩
  processResponse := fun _ _ _ => .ok true
  settleFee := fun _ _ => .ok ()
  depositFund := fun _ => .ok ()
  getLedger := .ok "0"

/-- Oracle where automatic settlement completes and reports `false`. -/
def envInvalidFlag : BrokerEnv where
  getServiceMetadata := fun _ => .ok ("https://provider.example", "llama")
  getRequestHeaders := fun _ _ => .ok [("Signature", .str "sig")]
  chatCreate := fun _ _ => .ok ⟨"chat-1", [⟨⟨"assistant", some "Hi there"⟩⟩]⟩
  processResponse := fun _ _ _ => .ok false
  settleFee := fun _ _ => .ok ()
  depositFund := fun _ => .ok ()
  getLedger := .ok "0"

/-- Recognizer for chat-completion request calls in a trace. -/
def isChatCreate : BrokerCall → Bool
  | .chatCreate _ _ => true
  | _ => false

/-- Keeping only string-valued entries is the identity on a header map
all of whose values are strings. -/
theorem stringHeaders_map_str (hss : List (String × String)) :
    stringHeaders (hss.map fun kv => (kv.1, HeaderValue.str kv.2)) = hss := by
  induction hss with
  | nil => rfl
  | cons kv t ih => simp [stringHeaders] at ih ⊢; exact ih

/-- The payment phase always dispatches the automatic settlement call,
with the coerced content and the completion id as arguments. -/
theorem processResponse_mem_settlePhase (env : BrokerEnv) (a m : String)
    (c : Option String) (cid : String) (fb : Option Rat) :
    BrokerCall.processResponse a (c.getD "") cid ∈ (settlePhase env a m c cid fb).2 := by
  unfold settlePhase
  cases env.processResponse a (c.getD "") cid with
  | ok v => simp
  | error e =>
    cases fb with
    | none => simp
    | some f =>
      by_cases hf : 0 < f
      · cases hsf : env.settleFee a f <;> simp [hf, settleFeeOp, hsf]
      · simp [hf]

/-- Every call dispatched by the payment phase is either the automatic
settlement call or a manual settlement call. -/
theorem settlePhase_calls (env : BrokerEnv) (a m : String) (c : Option String)
    (cid : String) (fb : Option Rat) :
    ∀ x ∈ (settlePhase env a m c cid fb).2,
      x = BrokerCall.processResponse a (c.getD "") cid ∨
        ∃ f, x = BrokerCall.settleFee a f := by
  unfold settlePhase
  cases env.processResponse a (c.getD "") cid with
  | ok v => simp
  | error e =>
    cases fb with
    | none => simp
    | some f =>
      by_cases hf : 0 < f
      · cases hsf : env.settleFee a f <;> simp [hf, settleFeeOp, hsf]
      · simp [hf]

/-- The payment phase dispatches no chat-completion request. -/
theorem settlePhase_filter_chat (env : BrokerEnv) (a m : String) (c : Option String)
    (cid : String) (fb : Option Rat) :
    ((settlePhase env a m c cid fb).2).filter isChatCreate = [] := by
  rw [List.filter_eq_nil_iff]
  intro x hx
  rcases settlePhase_calls env a m c cid fb x hx with h | ⟨f, h⟩ <;>
    simp [h, isChatCreate]

/-- When the pipeline reaches the payment phase, the trace of
`sendQuery` is the three pipeline calls followed by the payment-phase
trace. -/
theorem sendQuery_trace_split (env : BrokerEnv) (a q : String) (fb : Option Rat)
    (ep mdl : String) (hs : List (String × HeaderValue)) (comp : Completion)
    (ch : Choice) (rest : List Choice)
    (hm : env.getServiceMetadata a = .ok (ep, mdl))
    (hh : env.getRequestHeaders a q = .ok hs)
    (hc : env.chatCreate ep (mkChatRequest q mdl (stringHeaders hs)) = .ok comp)
    (hch : comp.choices = ch :: rest) :
    (sendQuery env a q fb).2 =
      [BrokerCall.getServiceMetadata a, BrokerCall.getRequestHeaders a q,
        BrokerCall.chatCreate ep (mkChatRequest q mdl (stringHeaders hs))] ++
      (settlePhase env a mdl ch.message.content comp.id fb).2 := by
  rcases hsp : settlePhase env a mdl ch.message.content comp.id fb with ⟨res, t⟩
  cases res <;> simp [sendQuery, hm, hh, hc, hch, hsp]

/-- When the pipeline reaches the payment phase, the result of
`sendQuery` is the payment-phase result, with errors wrapped by the
outer catch. -/
theorem sendQuery_result_split (env : BrokerEnv) (a q : String) (fb : Option Rat)
    (ep mdl : String) (hs : List (String × HeaderValue)) (comp : Completion)
    (ch : Choice) (rest : List Choice)
    (hm : env.getServiceMetadata a = .ok (ep, mdl))
    (hh : env.getRequestHeaders a q = .ok hs)
    (hc : env.chatCreate ep (mkChatRequest q mdl (stringHeaders hs)) = .ok comp)
    (hch : comp.choices = ch :: rest) :
    (sendQuery env a q fb).1 =
      match (settlePhase env a mdl ch.message.content comp.id fb).1 with
      | .ok r => .ok r
      | .error e => .error (queryFailed e) := by
  rcases hsp : settlePhase env a mdl ch.message.content comp.id fb with ⟨res, t⟩
  cases res <;> simp [sendQuery, hm, hh, hc, hch, hsp]

/-- A result returned by the payment phase carries the content it was
given, unchanged. -/
theorem settlePhase_ok_content (env : BrokerEnv) (a m : String) (c : Option String)
    (cid : String) (fb : Option Rat) (r : QueryResult)
    (h : (settlePhase env a m c cid fb).1 = .ok r) : r.content = c := by
  unfold settlePhase at h
  cases hp : env.processResponse a (c.getD "") cid with
  | ok v => rw [hp] at h; simp at h; simp [← h]
  | error e =>
    rw [hp] at h
    cases fb with
    | none => simp at h
    | some f =>
      by_cases hf : 0 < f
      · cases hsf : env.settleFee a f with
        | ok u => simp [hf, settleFeeOp, hsf] at h; simp [← h]
        | error e2 => simp [hf, settleFeeOp, hsf] at h
      · simp [hf] at h

/-- A successful result of `sendQuery` is a successful result of its
payment phase. -/
theorem sendQuery_ok_settle (env : BrokerEnv) (a q : String) (fb : Option Rat)
    (ep mdl : String) (hs : List (String × HeaderValue)) (comp : Completion)
    (ch : Choice) (rest : List Choice) (r : QueryResult)
    (hm : env.getServiceMetadata a = .ok (ep, mdl))
    (hh : env.getRequestHeaders a q = .ok hs)
    (hc : env.chatCreate ep (mkChatRequest q mdl (stringHeaders hs)) = .ok comp)
    (hch : comp.choices = ch :: rest)
    (h : (sendQuery env a q fb).1 = .ok r) :
    (settlePhase env a mdl ch.message.content comp.id fb).1 = .ok r := by
  rw [sendQuery_result_split env a q fb ep mdl hs comp ch rest hm hh hc hch] at h
  rcases hsp : (settlePhase env a mdl ch.message.content comp.id fb).1 with e2 | r2
  · rw [hsp] at h; simp at h
  · rw [hsp] at h; simp at h; rw [h]

/-- Claim C1 (amended): whenever the payment phase returns a result
(outcomes `Verified` or `FallbackSettled`), the result carries the
already-received content unchanged; the `Unsettled` case is not returned
as a result by the service variant, while the CLI variant prints the
received content before payment processing, so it is shown to the user
in every payment outcome. -/
theorem settle_content_preserved_amended :
    (∀ (env : BrokerEnv) (a m : String) (c : Option String) (cid : String)
        (fb : Option Rat) (r : QueryResult),
        (settlePhase env a m c cid fb).1 = .ok r → r.content = c) ∧
    (∀ (env : BrokerEnv) (a q : String) (fb : Option Rat) (ep mdl : String)
        (hs : List (String × HeaderValue)) (comp : Completion) (ch : Choice)
        (rest : List Choice),
        env.getServiceMetadata a = .ok (ep, mdl) →
        env.getRequestHeaders a q = .ok hs →
        env.chatCreate ep (mkChatRequest q mdl (stringHeaders hs)) = .ok comp →
        comp.choices = ch :: rest →
        CLIEvent.printContent ch.message.content ∈ cliSendQuery env a q fb) := by
  constructor
  · exact fun env a m c cid fb r h => settlePhase_ok_content env a m c cid fb r h
  · intro env a q fb ep mdl hs comp ch rest hm hh hc hch
    simp [cliSendQuery, hm, hh, hc, hch]

/-- Claim C1, counterexample to the original statement: with the
provider answering "Hi there" and automatic settlement failing, a query
with no fallback fee ends with no returned result at all — the service
variant throws, so the caller cannot obtain the content from the
`Unsettled` terminal outcome. -/
theorem sendQuery_payment_failure_discards_content_cex :
    (sendQuery envAutoFail "0xAAA" "Hello, AI!" none).1.toOption = none ∧
    (sendQuery envAutoFail "0xAAA" "Hello, AI!" none).1 =
      .error (queryFailed (paymentFailedMsg "stale fee")) := ⟨rfl, rfl⟩

/-- Witness for claim C1 (amended) at the Scenario A oracle. -/
theorem settle_content_preserved_amended_witness :
    ({ content := some "Hi there", metadata := .auto "llama" true "0xAAA" } :
        QueryResult).content = some "Hi there" ∧
    CLIEvent.printContent (some "Hi there") ∈
      cliSendQuery envScenarioA "0xAAA" "Hello, AI!" none :=
  ⟨settle_content_preserved_amended.1 envScenarioA "0xAAA" "llama" (some "Hi there")
      "chat-1" none ⟨some "Hi there", .auto "llama" true "0xAAA"⟩ rfl,
    settle_content_preserved_amended.2 envScenarioA "0xAAA" "Hello, AI!" none
      "https://provider.example" "llama" [("Signature", .str "sig")]
      ⟨"chat-1", [⟨⟨"assistant", some "Hi there"⟩⟩]⟩ ⟨⟨"assistant", some "Hi there"⟩⟩ []
      rfl rfl rfl rfl⟩

/-- Claim C2: when the automatic settlement call succeeds, `sendQuery`
returns the automatic-shape result whose content is exactly the
response content, the outcome is `Verified`, and no manual settlement
call is dispatched. -/
theorem sendQuery_auto_success_verified (env : BrokerEnv) (a q : String)
    (fb : Option Rat) (ep mdl : String) (hs : List (String × HeaderValue))
    (comp : Completion) (ch : Choice) (rest : List Choice) (isValid : Bool)
    (hm : env.getServiceMetadata a = .ok (ep, mdl))
    (hh : env.getRequestHeaders a q = .ok hs)
    (hc : env.chatCreate ep (mkChatRequest q mdl (stringHeaders hs)) = .ok comp)
    (hch : comp.choices = ch :: rest)
    (hp : env.processResponse a ((ch.message.content).getD "") comp.id = .ok isValid) :
    (sendQuery env a q fb).1 =
      .ok { content := ch.message.content, metadata := .auto mdl isValid a } ∧
    QueryResult.paymentOutcome
      { content := ch.message.content, metadata := .auto mdl isValid a } = .Verified ∧
    ∀ a2 f, BrokerCall.settleFee a2 f ∉ (sendQuery env a q fb).2 := by
  refine ⟨?_, rfl, ?_⟩
  · rw [sendQuery_result_split env a q fb ep mdl hs comp ch rest hm hh hc hch]
    simp [settlePhase, hp]
  · intro a2 f
    rw [sendQuery_trace_split env a q fb ep mdl hs comp ch rest hm hh hc hch]
    simp [settlePhase, hp]

/-- Witness for claim C2 at the Scenario A oracle. -/
theorem sendQuery_auto_success_verified_witness :
    (sendQuery envScenarioA "0xAAA" "Hello, AI!" none).1 =
      .ok { content := some "Hi there", metadata := .auto "llama" true "0xAAA" } ∧
    QueryResult.paymentOutcome
      { content := some "Hi there", metadata := .auto "llama" true "0xAAA" } =
        .Verified ∧
    BrokerCall.settleFee "0xAAA" 1 ∉
      (sendQuery envScenarioA "0xAAA" "Hello, AI!" none).2 := by
  have h := sendQuery_auto_success_verified envScenarioA "0xAAA" "Hello, AI!" none
    "https://provider.example" "llama" [("Signature", .str "sig")]
    ⟨"chat-1", [⟨⟨"assistant", some "Hi there"⟩⟩]⟩ ⟨⟨"assistant", some "Hi there"⟩⟩ []
    true rfl rfl rfl rfl rfl
  exact ⟨h.1, h.2.1, h.2.2 "0xAAA" 1⟩

/-- Claim C3: when the automatic settlement call fails and a strictly
positive fallback fee is supplied, `sendQuery` dispatches the manual
settlement call with the provider address and the fallback fee; when
that call succeeds the result has the fallback shape (outcome
`FallbackSettled`) and the content is unchanged from the response. -/
theorem sendQuery_fallback_success (env : BrokerEnv) (a q : String)
    (ep mdl : String) (hs : List (String × HeaderValue)) (comp : Completion)
    (ch : Choice) (rest : List Choice) (e : String) (f : Rat)
    (hm : env.getServiceMetadata a = .ok (ep, mdl))
    (hh : env.getRequestHeaders a q = .ok hs)
    (hc : env.chatCreate ep (mkChatRequest q mdl (stringHeaders hs)) = .ok comp)
    (hch : comp.choices = ch :: rest)
    (hp : env.processResponse a ((ch.message.content).getD "") comp.id = .error e)
    (hf : 0 < f)
    (hsf : env.settleFee a f = .ok ()) :
    (sendQuery env a q (some f)).1 =
      .ok { content := ch.message.content, metadata := .fallback mdl true f a } ∧
    QueryResult.paymentOutcome
      { content := ch.message.content, metadata := .fallback mdl true f a } =
        .FallbackSettled ∧
    BrokerCall.settleFee a f ∈ (sendQuery env a q (some f)).2 := by
  refine ⟨?_, rfl, ?_⟩
  · rw [sendQuery_result_split env a q (some f) ep mdl hs comp ch rest hm hh hc hch]
    simp [settlePhase, hp, hf, settleFeeOp, hsf]
  · rw [sendQuery_trace_split env a q (some f) ep mdl hs comp ch rest hm hh hc hch]
    simp [settlePhase, hp, hf, settleFeeOp, hsf]

/-- Witness for claim C3: automatic settlement fails with a stale-fee
error, fallback fee 1 settles successfully. -/
theorem sendQuery_fallback_success_witness :
    (sendQuery envAutoFail "0xAAA" "Hello, AI!" (some 1)).1 =
      .ok { content := some "Hi there", metadata := .fallback "llama" true 1 "0xAAA" } ∧
    QueryResult.paymentOutcome
      { content := some "Hi there", metadata := .fallback "llama" true 1 "0xAAA" } =
        .FallbackSettled ∧
    BrokerCall.settleFee "0xAAA" 1 ∈
      (sendQuery envAutoFail "0xAAA" "Hello, AI!" (some 1)).2 :=
  sendQuery_fallback_success envAutoFail "0xAAA" "Hello, AI!"
    "https://provider.example" "llama" [("Signature", .str "sig")]
    ⟨"chat-1", [⟨⟨"assistant", some "Hi there"⟩⟩]⟩ ⟨⟨"assistant", some "Hi there"⟩⟩ []
    "stale fee" 1 rfl rfl rfl rfl rfl (by norm_num) rfl

/-- Claim C4, counterexample to the original statement: with automatic
settlement failing and no fallback fee, `sendQuery` does not return a
result with outcome `Unsettled` — it throws a wrapped
payment-processing error. -/
theorem sendQuery_no_fallback_throws_cex :
    (sendQuery envAutoFail "0xAAA" "Hello, AI!" none).1 =
      .error "Query failed: Payment processing failed: stale fee" ∧
    (sendQuery envAutoFail "0xAAA" "Hello, AI!" none).1.toOption.map
      QueryResult.paymentOutcome ≠ some PaymentOutcome.Unsettled := ⟨rfl, by decide⟩

/-- Claim C4 (amended): when automatic settlement fails and the
fallback fee is absent or not strictly positive, no manual settlement
call is dispatched and `sendQuery` throws the wrapped
payment-processing error instead of returning an `Unsettled` result. -/
theorem sendQuery_no_fallback_amended (env : BrokerEnv) (a q : String)
    (fb : Option Rat) (ep mdl : String) (hs : List (String × HeaderValue))
    (comp : Completion) (ch : Choice) (rest : List Choice) (e : String)
    (hfb : fb = none ∨ ∃ f, fb = some f ∧ f ≤ 0)
    (hm : env.getServiceMetadata a = .ok (ep, mdl))
    (hh : env.getRequestHeaders a q = .ok hs)
    (hc : env.chatCreate ep (mkChatRequest q mdl (stringHeaders hs)) = .ok comp)
    (hch : comp.choices = ch :: rest)
    (hp : env.processResponse a ((ch.message.content).getD "") comp.id = .error e) :
    (sendQuery env a q fb).1 = .error (queryFailed (paymentFailedMsg e)) ∧
    ∀ a2 f2, BrokerCall.settleFee a2 f2 ∉ (sendQuery env a q fb).2 := by
  have hr := sendQuery_result_split env a q fb ep mdl hs comp ch rest hm hh hc hch
  have ht := sendQuery_trace_split env a q fb ep mdl hs comp ch rest hm hh hc hch
  rcases hfb with rfl | ⟨f, rfl, hf⟩
  · refine ⟨?_, fun a2 f2 => ?_⟩
    · rw [hr]; simp [settlePhase, hp]
    · rw [ht]; simp [settlePhase, hp]
  · have hnf : ¬ 0 < f := not_lt.mpr hf
    refine ⟨?_, fun a2 f2 => ?_⟩
    · rw [hr]; simp [settlePhase, hp, hnf]
    · rw [ht]; simp [settlePhase, hp, hnf]

/-- Witness for claim C4 (amended): automatic settlement fails, no
fallback fee supplied. -/
theorem sendQuery_no_fallback_amended_witness :
    (sendQuery envAutoFail "0xAAA" "Hello, AI!" none).1 =
      .error (queryFailed (paymentFailedMsg "stale fee")) ∧
    BrokerCall.settleFee "0xAAA" 1 ∉
      (sendQuery envAutoFail "0xAAA" "Hello, AI!" none).2 := by
  have h := sendQuery_no_fallback_amended envAutoFail "0xAAA" "Hello, AI!" none
    "https://provider.example" "llama" [("Signature", .str "sig")]
    ⟨"chat-1", [⟨⟨"assistant", some "Hi there"⟩⟩]⟩ ⟨⟨"assistant", some "Hi there"⟩⟩ []
    "stale fee" (Or.inl rfl) rfl rfl rfl rfl rfl
  exact ⟨h.1, h.2 "0xAAA" 1⟩

/-- Claim C5, counterexample to the original statement: with a
completion whose correlation id is empty, the automatic settlement call
is not skipped — `processResponse` is dispatched with the empty id. -/
theorem sendQuery_empty_correlation_not_skipped_cex :
    BrokerCall.processResponse "0xAAA" "Hi there" "" ∈
      (sendQuery envEmptyChatId "0xAAA" "Hello, AI!" none).2 ∧
    (sendQuery envEmptyChatId "0xAAA" "Hello, AI!" none).1 =
      .ok { content := some "Hi there", metadata := .auto "llama" true "0xAAA" } :=
  ⟨by decide, rfl⟩

/-- Claim C5 (amended): once a completion with a nonempty choices list
is received, automatic settlement is always attempted, and the
completion id — empty or not — is passed to `processResponse`
unchanged. -/
theorem sendQuery_always_attempts_auto_settlement (env : BrokerEnv) (a q : String)
    (fb : Option Rat) (ep mdl : String) (hs : List (String × HeaderValue))
    (comp : Completion) (ch : Choice) (rest : List Choice)
    (hm : env.getServiceMetadata a = .ok (ep, mdl))
    (hh : env.getRequestHeaders a q = .ok hs)
    (hc : env.chatCreate ep (mkChatRequest q mdl (stringHeaders hs)) = .ok comp)
    (hch : comp.choices = ch :: rest) :
    BrokerCall.processResponse a ((ch.message.content).getD "") comp.id ∈
      (sendQuery env a q fb).2 := by
  rw [sendQuery_trace_split env a q fb ep mdl hs comp ch rest hm hh hc hch]
  exact List.mem_append_right _
    (processResponse_mem_settlePhase env a mdl ch.message.content comp.id fb)

/-- Witness for claim C5 (amended) at the Scenario A oracle. -/
theorem sendQuery_always_attempts_auto_settlement_witness :
    BrokerCall.processResponse "0xAAA" "Hi there" "chat-1" ∈
      (sendQuery envScenarioA "0xAAA" "Hello, AI!" none).2 :=
  sendQuery_always_attempts_auto_settlement envScenarioA "0xAAA" "Hello, AI!" none
    "https://provider.example" "llama" [("Signature", .str "sig")]
    ⟨"chat-1", [⟨⟨"assistant", some "Hi there"⟩⟩]⟩ ⟨⟨"assistant", some "Hi there"⟩⟩ []
    rfl rfl rfl rfl

/-- Claim C6, counterexample to the original statement: the service
deposit operation called with amount 0 does not fail before the broker
call — it forwards 0 to the broker and reports success. -/
theorem depositFunds_forwards_nonpositive_cex :
    (depositFunds envScenarioA 0).2 = [BrokerCall.depositFund 0] ∧
    (depositFunds envScenarioA 0).1 = .ok "Deposit successful" := ⟨rfl, rfl⟩

/-- Claim C6 (amended): only the CLI dispatcher validates the deposit
amount — a parsed amount that is NaN or not strictly positive is
rejected with an invalid-amount message before any broker call — while
the service-variant `depositFunds` itself performs no validation and
always forwards its amount to the broker. -/
theorem deposit_validation_amended :
    (∀ (env : BrokerEnv) (a : Rat), a ≤ 0 →
        cliDeposit env (some a) = [CLIEvent.log "Invalid deposit amount"]) ∧
    (∀ env : BrokerEnv, cliDeposit env none = [CLIEvent.log "Invalid deposit amount"]) ∧
    (∀ (env : BrokerEnv) (a : Rat),
        (depositFunds env a).2 = [BrokerCall.depositFund a]) := by
  refine ⟨?_, fun env => rfl, ?_⟩
  · intro env a ha
    simp [cliDeposit, not_lt.mpr ha]
  · intro env a
    unfold depositFunds
    rcases env.depositFund a with e | u <;> rfl

/-- Witness for claim C6 (amended) at amount 0. -/
theorem deposit_validation_amended_witness :
    cliDeposit envScenarioA (some 0) = [CLIEvent.log "Invalid deposit amount"] ∧
    cliDeposit envScenarioA none = [CLIEvent.log "Invalid deposit amount"] ∧
    (depositFunds envScenarioA 0).2 = [BrokerCall.depositFund 0] :=
  ⟨deposit_validation_amended.1 envScenarioA 0 le_rfl,
    deposit_validation_amended.2.1 envScenarioA,
    deposit_validation_amended.2.2 envScenarioA 0⟩

/-- Claim C7: when the broker issues string-valued headers, the single
chat-completion request of a query goes to the resolved endpoint and
carries exactly one user message equal to the prompt, the model from
the resolved metadata, and the issued headers verbatim — nothing added,
dropped, or altered. -/
theorem sendQuery_request_shape (env : BrokerEnv) (a q : String) (fb : Option Rat)
    (ep mdl : String) (hss : List (String × String))
    (hm : env.getServiceMetadata a = .ok (ep, mdl))
    (hh : env.getRequestHeaders a q =
        .ok (hss.map fun kv => (kv.1, HeaderValue.str kv.2))) :
    ((sendQuery env a q fb).2).filter isChatCreate =
      [BrokerCall.chatCreate ep
        { messages := [("user", q)], model := mdl, headers := hss }] := by
  have hsh := stringHeaders_map_str hss
  unfold sendQuery
  rw [hm, hh]
  simp only [mkChatRequest, hsh]
  rcases hcc : env.chatCreate ep
      { messages := [("user", q)], model := mdl, headers := hss } with e | comp
  · simp [hcc, isChatCreate]
  · rcases hch : comp.choices with _ | ⟨ch, rest⟩
    · simp [hcc, hch, isChatCreate]
    · rcases hsp : settlePhase env a mdl ch.message.content comp.id fb with ⟨res, t⟩
      have hft : t.filter isChatCreate = [] := by
        have h2 := settlePhase_filter_chat env a mdl ch.message.content comp.id fb
        rwa [hsp] at h2
      cases res <;> simp [hcc, hch, hsp, List.filter_append, hft, isChatCreate]

/-- Witness for claim C7 at the Scenario A oracle. -/
theorem sendQuery_request_shape_witness :
    ((sendQuery envScenarioA "0xAAA" "Hello, AI!" none).2).filter isChatCreate =
      [BrokerCall.chatCreate "https://provider.example"
        { messages := [("user", "Hello, AI!")], model := "llama",
          headers := [("Signature", "sig")] }] :=
  sendQuery_request_shape envScenarioA "0xAAA" "Hello, AI!" none
    "https://provider.example" "llama" [("Signature", "sig")] rfl rfl

/-- Claim C8: when the completion carries an empty choices list, the
unguarded read of the first choice makes `sendQuery` throw the wrapped
runtime error instead of returning an absent-content result. -/
theorem sendQuery_empty_choices_throws (env : BrokerEnv) (a q : String)
    (fb : Option Rat) (ep mdl : String) (hs : List (String × HeaderValue))
    (comp : Completion)
    (hm : env.getServiceMetadata a = .ok (ep, mdl))
    (hh : env.getRequestHeaders a q = .ok hs)
    (hc : env.chatCreate ep (mkChatRequest q mdl (stringHeaders hs)) = .ok comp)
    (hch : comp.choices = []) :
    (sendQuery env a q fb).1 = .error (queryFailed typeErrorMsg) ∧
    ∀ r, (sendQuery env a q fb).1 ≠ .ok r := by
  have h1 : (sendQuery env a q fb).1 = .error (queryFailed typeErrorMsg) := by
    simp [sendQuery, hm, hh, hc, hch]
  exact ⟨h1, fun r hr => by rw [h1] at hr; exact Except.noConfusion hr⟩

/-- Witness for claim C8 at the empty-choices oracle. -/
theorem sendQuery_empty_choices_throws_witness :
    (sendQuery envEmptyChoices "0xAAA" "Hello, AI!" none).1 =
      .error (queryFailed typeErrorMsg) ∧
    (sendQuery envEmptyChoices "0xAAA" "Hello, AI!" none).1 ≠
      .ok { content := some "Hi there", metadata := .auto "llama" true "0xAAA" } := by
  have h := sendQuery_empty_choices_throws envEmptyChoices "0xAAA" "Hello, AI!" none
    "https://provider.example" "llama" [("Signature", .str "sig")] ⟨"chat-1", []⟩
    rfl rfl rfl rfl
  exact ⟨h.1, h.2 { content := some "Hi there", metadata := .auto "llama" true "0xAAA" }⟩

/-- Claim C9: when the automatic settlement call completes and returns
`false`, the payment phase still returns the success result carrying
the content, reporting `false` only through the `isValid` flag; the
fallback path is not taken. -/
theorem settlePhase_invalid_flag_still_ok (env : BrokerEnv) (a m : String)
    (c : Option String) (cid : String) (fb : Option Rat)
    (hp : env.processResponse a (c.getD "") cid = .ok false) :
    (settlePhase env a m c cid fb).1 =
      .ok { content := c, metadata := .auto m false a } ∧
    QueryResult.paymentOutcome { content := c, metadata := .auto m false a } =
      .Verified ∧
    ∀ a2 f, BrokerCall.settleFee a2 f ∉ (settlePhase env a m c cid fb).2 := by
  refine ⟨?_, rfl, fun a2 f => ?_⟩ <;> simp [settlePhase, hp]

/-- Witness for claim C9 at the invalid-flag oracle. -/
theorem settlePhase_invalid_flag_still_ok_witness :
    (settlePhase envInvalidFlag "0xAAA" "llama" (some "Hi there") "chat-1" none).1 =
      .ok { content := some "Hi there", metadata := .auto "llama" false "0xAAA" } ∧
    QueryResult.paymentOutcome
      { content := some "Hi there", metadata := .auto "llama" false "0xAAA" } =
        .Verified ∧
    BrokerCall.settleFee "0xAAA" 1 ∉
      (settlePhase envInvalidFlag "0xAAA" "llama" (some "Hi there") "chat-1" none).2 := by
  have h := settlePhase_invalid_flag_still_ok envInvalidFlag "0xAAA" "llama"
    (some "Hi there") "chat-1" none rfl
  exact ⟨h.1, h.2.1, h.2.2 "0xAAA" 1⟩

/-- Claim C10: when the response content is absent, the automatic
settlement call receives the empty string in its place, while any
returned result keeps the original absent content. -/
theorem sendQuery_null_content (env : BrokerEnv) (a q : String) (fb : Option Rat)
    (ep mdl : String) (hs : List (String × HeaderValue)) (comp : Completion)
    (ch : Choice) (rest : List Choice)
    (hm : env.getServiceMetadata a = .ok (ep, mdl))
    (hh : env.getRequestHeaders a q = .ok hs)
    (hc : env.chatCreate ep (mkChatRequest q mdl (stringHeaders hs)) = .ok comp)
    (hch : comp.choices = ch :: rest)
    (hnull : ch.message.content = none) :
    BrokerCall.processResponse a "" comp.id ∈ (sendQuery env a q fb).2 ∧
    ∀ r, (sendQuery env a q fb).1 = .ok r → r.content = none := by
  constructor
  · rw [sendQuery_trace_split env a q fb ep mdl hs comp ch rest hm hh hc hch, hnull]
    exact List.mem_append_right _
      (processResponse_mem_settlePhase env a mdl none comp.id fb)
  · intro r hr
    have h := sendQuery_ok_settle env a q fb ep mdl hs comp ch rest r hm hh hc hch hr
    rw [settlePhase_ok_content env a mdl ch.message.content comp.id fb r h, hnull]

/-- Witness for claim C10 at the null-content oracle. -/
theorem sendQuery_null_content_witness :
    BrokerCall.processResponse "0xAAA" "" "chat-1" ∈
      (sendQuery envNullContent "0xAAA" "Hello, AI!" none).2 ∧
    ({ content := none, metadata := .auto "llama" true "0xAAA" } :
        QueryResult).content = none := by
  have h := sendQuery_null_content envNullContent "0xAAA" "Hello, AI!" none
    "https://provider.example" "llama" [("Signature", .str "sig")]
    ⟨"chat-1", [⟨⟨"assistant", none⟩⟩]⟩ ⟨⟨"assistant", none⟩⟩ []
    rfl rfl rfl rfl rfl
  exact ⟨h.1, h.2 { content := none, metadata := .auto "llama" true "0xAAA" } rfl⟩

end ZGCompute
